import Mathlib

/-!
Verification development for two memory-mapped register-map headers:
the ESP32-C6 USB-Serial-JTAG controller (`USB_SERIAL_JTAG_ESP32-C6_LIB.h`)
and the RP2040 bus-fabric arbiter (`c.h`, a.k.a. `BUSCTRL_LIB.h`).

The headers declare, for each hardware register, a 32-bit union of a whole
word and a C bit-field struct, per-field mask constants, reset-value
constants, enumerated field values, a packed module struct bound at a fixed
physical base address, and accessor macros.  We embed that data model
shallowly: each register type becomes a list of (name, width, access-mode)
field descriptors in declaration order, each module struct becomes a list of
(member, byte-size) pairs, and C bit-field reads/writes become arithmetic
on a 32-bit word.
-/

/-- One declared bit-field of a register union's BITS struct, in declaration
order.  `width` is the declared bit width; `ro` records the header's access
annotation (`true` for fields annotated RO, read-only); `res` marks
reserved / unnamed padding fields. -/
structure RF where
  fname : String
  width : Nat
  ro : Bool
  res : Bool
deriving DecidableEq

/-- One register union type of a header: its declared fields in order, its
named field-mask constants (paired with the field each documents), and its
documented reset-value constants (a singleton list except for the interrupt
status type, which documents four bank resets RAW/ST/ENA/CLR). -/
structure RegType where
  rname : String
  fields : List RF
  masks : List (String × Nat)
  resets : List Nat
deriving DecidableEq

/-- Bit offset of the `i`-th declared field: the sum of the widths of the
fields declared before it (C bit-field packing of `uint32_t` members). -/
def offsetAt : List RF → Nat → Nat
  | [], _ => 0
  | _ :: _, 0 => 0
  | f :: fs, Nat.succ i => f.width + offsetAt fs i

/-- Reading a bit-field of width `w` at bit offset `off` from a register
word `x` (C semantics: shift right, truncate to the field width). -/
def getField (x off w : Nat) : Nat :=
  x / 2 ^ off % 2 ^ w

/-- Writing value `v` to a bit-field of width `w` at bit offset `off` of a
register word `x` (C semantics: `v` is truncated to `w` bits, the other
bits of the word are preserved). -/
def setField (x off w v : Nat) : Nat :=
  x % 2 ^ off + v % 2 ^ w * 2 ^ off + x / 2 ^ (off + w) * 2 ^ (off + w)

/-- The mask constant prescribed for a named field:
`((1 << width) - 1) << offset` with the offset the sum of the widths of the
fields declared before it.  Returns 0 when no field has the given name. -/
def maskOf : List RF → String → Nat → Nat
  | [], _, _ => 0
  | f :: fs, n, off =>
      if f.fname = n then (2 ^ f.width - 1) * 2 ^ off
      else maskOf fs n (off + f.width)

/-- Bitwise OR of all field-mask constants a register exposes. -/
def orMasks (rt : RegType) : Nat :=
  (rt.masks.map Prod.snd).foldr (fun m acc => m ||| acc) 0

/-- Union of the bit positions of a register's named (non-reserved) fields. -/
def namedBits : List RF → Nat → Nat
  | [], _ => 0
  | f :: fs, off =>
      (if f.res then 0 else (2 ^ f.width - 1) * 2 ^ off) ||| namedBits fs (off + f.width)

/-- Byte offset of a struct member from the start of a packed register
struct: the sum of the sizes of the members declared before it. -/
def structOffset : List (String × Nat) → String → Nat
  | [], _ => 0
  | (n, sz) :: rest, m => if n = m then 0 else sz + structOffset rest m

/-- Total byte size of a packed register struct. -/
def structSize (l : List (String × Nat)) : Nat :=
  (l.map Prod.snd).sum

section BitfieldLemmas

theorem getField_eq_mod_div (x o w : Nat) :
    getField x o w = x % 2 ^ (o + w) / 2 ^ o := by
  unfold getField
  rw [← Nat.mod_mul_right_div_self, ← pow_add]

theorem setField_mod (x o w v : Nat) :
    setField x o w v % 2 ^ o = x % 2 ^ o := by
  unfold setField
  have h : x % 2 ^ o + v % 2 ^ w * 2 ^ o + x / 2 ^ (o + w) * 2 ^ (o + w)
      = x % 2 ^ o + (v % 2 ^ w + x / 2 ^ (o + w) * 2 ^ w) * 2 ^ o := by
    rw [pow_add]; ring
  rw [h, Nat.add_mul_mod_self_right, Nat.mod_mod_of_dvd _ dvd_rfl]

theorem setField_div (x o w v : Nat) :
    setField x o w v / 2 ^ (o + w) = x / 2 ^ (o + w) := by
  unfold setField
  have h1 : x % 2 ^ o < 2 ^ o := Nat.mod_lt _ (Nat.two_pow_pos o)
  have h2 : v % 2 ^ w < 2 ^ w := Nat.mod_lt _ (Nat.two_pow_pos w)
  have hlow : x % 2 ^ o + v % 2 ^ w * 2 ^ o < 2 ^ (o + w) := by
    calc x % 2 ^ o + v % 2 ^ w * 2 ^ o
        < 2 ^ o + v % 2 ^ w * 2 ^ o := by omega
      _ = (1 + v % 2 ^ w) * 2 ^ o := by ring
      _ ≤ 2 ^ w * 2 ^ o := Nat.mul_le_mul_right _ (by omega)
      _ = 2 ^ (o + w) := by rw [pow_add]; ring
  rw [Nat.add_mul_div_right _ _ (Nat.two_pow_pos (o + w)),
    Nat.div_eq_of_lt hlow, Nat.zero_add]

theorem getField_setField_self (x o w v : Nat) :
    getField (setField x o w v) o w = v % 2 ^ w := by
  unfold getField setField
  have h : x % 2 ^ o + v % 2 ^ w * 2 ^ o + x / 2 ^ (o + w) * 2 ^ (o + w)
      = x % 2 ^ o + (v % 2 ^ w + x / 2 ^ (o + w) * 2 ^ w) * 2 ^ o := by
    rw [pow_add]; ring
  rw [h, Nat.add_mul_div_right _ _ (Nat.two_pow_pos o),
    Nat.div_eq_of_lt (Nat.mod_lt _ (Nat.two_pow_pos o)), Nat.zero_add,
    Nat.add_mul_mod_self_right, Nat.mod_mod_of_dvd _ dvd_rfl]

theorem getField_setField_lower (x fo fw v go gw : Nat) (h : go + gw ≤ fo) :
    getField (setField x fo fw v) go gw = getField x go gw := by
  rw [getField_eq_mod_div, getField_eq_mod_div]
  have hdvd : (2 : Nat) ^ (go + gw) ∣ 2 ^ fo := pow_dvd_pow 2 h
  rw [← Nat.mod_mod_of_dvd _ hdvd, setField_mod, Nat.mod_mod_of_dvd _ hdvd]

theorem getField_setField_upper (x fo fw v go gw : Nat) (h : fo + fw ≤ go) :
    getField (setField x fo fw v) go gw = getField x go gw := by
  unfold getField
  have hgo : go = (fo + fw) + (go - (fo + fw)) := by omega
  rw [hgo, pow_add, ← Nat.div_div_eq_div_mul, ← Nat.div_div_eq_div_mul,
    setField_div]

theorem offsetAt_le (fs : List RF) :
    ∀ i j, i ≤ j → offsetAt fs i ≤ offsetAt fs j := by
  induction fs with
  | nil => intro i j _; simp [offsetAt]
  | cons f fs ih =>
    intro i j hij
    cases i with
    | zero =>
      cases j with
      | zero => exact Nat.le_refl _
      | succ j => exact Nat.zero_le _
    | succ i =>
      cases j with
      | zero => omega
      | succ j =>
        exact Nat.add_le_add_left (ih i j (by omega)) _

theorem offsetAt_add_width_le (fs : List RF) :
    ∀ i j (hi : i < fs.length), i < j →
      offsetAt fs i + (fs.get ⟨i, hi⟩).width ≤ offsetAt fs j := by
  induction fs with
  | nil => intro i j hi _; simp at hi
  | cons f fs ih =>
    intro i j hi hij
    cases i with
    | zero =>
      cases j with
      | zero => omega
      | succ j =>
        simp only [offsetAt, List.get_cons_zero, Nat.zero_add]
        exact Nat.le_add_right f.width (offsetAt fs j)
    | succ i =>
      cases j with
      | zero => omega
      | succ j =>
        simp only [offsetAt, List.get_cons_succ]
        have := ih i j (Nat.lt_of_succ_lt_succ hi) (by omega)
        omega

end BitfieldLemmas

/-! ### Register types of `USB_SERIAL_JTAG_ESP32-C6_LIB.h`

Each `RF` line mirrors one bit-field declaration of the corresponding C
union, in declaration order; `masks` mirrors the `#define m...` field-mask
constants and `resets` the `#define m..._RESET` constants. -/

def mUSBSERIALJTAG_EP1REG_RDWR_BYTE : Nat := 0x000000FF

def usbSerialJtag_ep1Reg_t : RegType :=
  { rname := "__usbSerialJtag_ep1Reg_t"
    fields :=
      [⟨"RDWR_BYTE", 8, false, false⟩,
       ⟨"RESERVED", 24, true, true⟩]
    masks := [("RDWR_BYTE", mUSBSERIALJTAG_EP1REG_RDWR_BYTE)]
    resets := [0x00000000] }

def usbSerialJtag_ep1ConfReg_t : RegType :=
  { rname := "__usbSerialJtag_ep1ConfReg_t"
    fields :=
      [⟨"WR_DONE", 1, false, false⟩,
       ⟨"SERIAL_IN_EP_DATA_FREE", 1, true, false⟩,
       ⟨"SERIAL_OUT_EP_DATA_AVAIL", 1, true, false⟩,
       ⟨"RESERVED", 29, true, true⟩]
    masks :=
      [("WR_DONE", 0x00000001),
       ("SERIAL_IN_EP_DATA_FREE", 0x00000002),
       ("SERIAL_OUT_EP_DATA_AVAIL", 0x00000004)]
    resets := [0x00000002] }

def usbSerialJtag_conf0Reg_t : RegType :=
  { rname := "__usbSerialJtag_conf0Reg_t"
    fields :=
      [⟨"PHY_SEL", 1, false, false⟩,
       ⟨"EXCHG_PINS_OVERRIDE", 1, false, false⟩,
       ⟨"EXCHG_PINS", 1, false, false⟩,
       ⟨"VREFH", 2, false, false⟩,
       ⟨"VREFL", 2, false, false⟩,
       ⟨"VREF_OVERRIDE", 1, false, false⟩,
       ⟨"PAD_PULL_OVERRIDE", 1, false, false⟩,
       ⟨"DP_PULLUP", 1, false, false⟩,
       ⟨"DP_PULLDOWN", 1, false, false⟩,
       ⟨"DM_PULLUP", 1, false, false⟩,
       ⟨"DM_PULLDOWN", 1, false, false⟩,
       ⟨"PULLUP_VALUE", 1, false, false⟩,
       ⟨"USB_PAD_ENABLE", 1, false, false⟩,
       ⟨"USB_JTAG_BRIDGE_EN", 1, false, false⟩,
       ⟨"RESERVED", 16, true, true⟩]
    masks :=
      [("PHY_SEL", 0x00000001),
       ("EXCHG_PINS_OVERRIDE", 0x00000002),
       ("EXCHG_PINS", 0x00000004),
       ("VREFH", 0x00000018),
       ("VREFL", 0x00000060),
       ("VREF_OVERRIDE", 0x00000080),
       ("PAD_PULL_OVERRIDE", 0x00000100),
       ("DP_PULLUP", 0x00000200),
       ("DP_PULLDOWN", 0x00000400),
       ("DM_PULLUP", 0x00000800),
       ("DM_PULLDOWN", 0x00001000),
       ("PULLUP_VALUE", 0x00002000),
       ("USB_PAD_ENABLE", 0x00004000),
       ("USB_JTAG_BRIDGE_EN", 0x00008000)]
    resets := [0x00004200] }

def usbSerialJtag_testReg_t : RegType :=
  { rname := "__usbSerialJtag_testReg_t"
    fields :=
      [⟨"TEST_ENABLE", 1, false, false⟩,
       ⟨"TEST_USB_OE", 1, false, false⟩,
       ⟨"TEST_TX_DP", 1, false, false⟩,
       ⟨"TEST_TX_DM", 1, false, false⟩,
       ⟨"TEST_RX_RCV", 1, true, false⟩,
       ⟨"TEST_RX_DP", 1, true, false⟩,
       ⟨"TEST_RX_DM", 1, true, false⟩,
       ⟨"RESERVED", 25, true, true⟩]
    masks :=
      [("TEST_ENABLE", 0x00000001),
       ("TEST_USB_OE", 0x00000002),
       ("TEST_TX_DP", 0x00000004),
       ("TEST_TX_DM", 0x00000008),
       ("TEST_RX_RCV", 0x00000010),
       ("TEST_RX_DP", 0x00000020),
       ("TEST_RX_DM", 0x00000040)]
    resets := [0x00000030] }

def usbSerialJtag_miscConfReg_t : RegType :=
  { rname := "__usbSerialJtag_miscConfReg_t"
    fields :=
      [⟨"CLK_EN", 1, false, false⟩,
       ⟨"RESERVED", 31, true, true⟩]
    masks := [("CLK_EN", 0x00000001)]
    resets := [0x00000000] }

def usbSerialJtag_memConfReg_t : RegType :=
  { rname := "__usbSerialJtag_memConfReg_t"
    fields :=
      [⟨"USB_MEM_PD", 1, false, false⟩,
       ⟨"USB_MEM_CLK_EN", 1, false, false⟩,
       ⟨"RESERVED", 30, true, true⟩]
    masks :=
      [("USB_MEM_PD", 0x00000001),
       ("USB_MEM_CLK_EN", 0x00000002)]
    resets := [0x00000002] }

def usbSerialJtag_chipRstReg_t : RegType :=
  { rname := "__usbSerialJtag_chipRstReg_t"
    fields :=
      [⟨"JTAG_RTS", 1, true, false⟩,
       ⟨"JTAG_DTR", 1, true, false⟩,
       ⟨"USB_UART_CHIP_RST_DIS", 1, false, false⟩,
       ⟨"RESERVED", 29, true, true⟩]
    masks :=
      [("JTAG_RTS", 0x00000001),
       ("JTAG_DTR", 0x00000002),
       ("USB_UART_CHIP_RST_DIS", 0x00000004)]
    resets := [0x00000000] }

def usbSerialJtag_getLineCodeW0Reg_t : RegType :=
  { rname := "__usbSerialJtag_getLineCodeW0Reg_t"
    fields := [⟨"GET_LINE_CODE_W0_REG", 32, false, false⟩]
    masks := [("GET_LINE_CODE_W0_REG", 0xFFFFFFFF)]
    resets := [0x00000000] }

def usbSerialJtag_getLineCodeW1Reg_t : RegType :=
  { rname := "__usbSerialJtag_getLineCodeW1Reg_t"
    fields :=
      [⟨"GET_BDATA_BITS", 8, false, false⟩,
       ⟨"GET_BPARITY_TYPE", 8, false, false⟩,
       ⟨"GET_BCHAR_FORMAT", 8, false, false⟩,
       ⟨"RESERVED", 8, true, true⟩]
    masks :=
      [("GET_BDATA_BITS", 0x000000FF),
       ("GET_BPARITY_TYPE", 0x0000FF00),
       ("GET_BCHAR_FORMAT", 0x00FF0000)]
    resets := [0x00000000] }

def usbSerialJtag_configUpdateReg_t : RegType :=
  { rname := "__usbSerialJtag_configUpdateReg_t"
    fields :=
      [⟨"CONFIG_UPDATE", 1, false, false⟩,
       ⟨"RESERVED", 31, true, true⟩]
    masks := [("CONFIG_UPDATE", 0x00000001)]
    resets := [0x00000000] }

def usbSerialJtag_serAfifoConficReg_t : RegType :=
  { rname := "__usbSerialJtag_serAfifoConficReg_t"
    fields :=
      [⟨"SERIAL_IN_AFIFO_RESET_WR", 1, false, false⟩,
       ⟨"SERIAL_IN_AFIFO_RESET_RD", 1, false, false⟩,
       ⟨"SERIAL_OUT_AFIFO_RESET_WR", 1, false, false⟩,
       ⟨"SERIAL_OUT_AFIFO_RESET_RD", 1, false, false⟩,
       ⟨"SERIAL_OUT_AFIFO_REMPTY", 1, true, false⟩,
       ⟨"SERIAL_IN_AFIFO_WFULL", 1, true, false⟩,
       ⟨"RESERVED", 26, true, true⟩]
    masks :=
      [("SERIAL_IN_AFIFO_RESET_WR", 0x00000001),
       ("SERIAL_IN_AFIFO_RESET_RD", 0x00000002),
       ("SERIAL_OUT_AFIFO_RESET_WR", 0x00000004),
       ("SERIAL_OUT_AFIFO_RESET_RD", 0x00000008),
       ("SERIAL_OUT_AFIFO_REMPTY", 0x00000010),
       ("SERIAL_IN_AFIFO_WFULL", 0x00000020)]
    resets := [0x00000010] }

def mUSBSERIALJTAG_INTSTATUSREG_IN_EMPTY_INT : Nat := 0x00000008
def mUSBSERIALJTAG_INTSTATUSREG_RESET_RAW : Nat := 0x00000008
def mUSBSERIALJTAG_INTSTATUSREG_RESET_ST : Nat := 0x00000000
def mUSBSERIALJTAG_INTSTATUSREG_RESET_ENA : Nat := 0x00000000
def mUSBSERIALJTAG_INTSTATUSREG_RESET_CLR : Nat := 0x00000000

def usbSerialJtag_intStatusReg_t : RegType :=
  { rname := "__usbSerialJtag_intStatusReg_t"
    fields :=
      [⟨"IN_FLUSH_INT", 1, false, false⟩,
       ⟨"SOF_INT", 1, false, false⟩,
       ⟨"OUT_RECV_PKT_INT", 1, false, false⟩,
       ⟨"IN_EMPTY_INT", 1, false, false⟩,
       ⟨"PID_ERR_INT", 1, false, false⟩,
       ⟨"CRC5_ERR_INT", 1, false, false⟩,
       ⟨"CRC16_ERR_INT", 1, false, false⟩,
       ⟨"STUFF_ERR_INT", 1, false, false⟩,
       ⟨"IN_TOKEN_REC_IN_EP1_INT", 1, false, false⟩,
       ⟨"USB_BUS_RESET_INT", 1, false, false⟩,
       ⟨"OUT_EP1_ZERO_PAYLOAD_INT", 1, false, false⟩,
       ⟨"OUT_EP2_ZERO_PAYLOAD_INT", 1, false, false⟩,
       ⟨"RTS_CHG_INT", 1, false, false⟩,
       ⟨"DTR_CHG_INT", 1, false, false⟩,
       ⟨"GET_LINE_CODE_INT", 1, false, false⟩,
       ⟨"SET_LINE_CODE_INT", 1, false, false⟩,
       ⟨"RESERVED", 16, true, true⟩]
    masks :=
      [("IN_FLUSH_INT", 0x00000001),
       ("SOF_INT", 0x00000002),
       ("OUT_RECV_PKT_INT", 0x00000004),
       ("IN_EMPTY_INT", mUSBSERIALJTAG_INTSTATUSREG_IN_EMPTY_INT),
       ("PID_ERR_INT", 0x00000010),
       ("CRC5_ERR_INT", 0x00000020),
       ("CRC16_ERR_INT", 0x00000040),
       ("STUFF_ERR_INT", 0x00000080),
       ("IN_TOKEN_REC_IN_EP1_INT", 0x00000100),
       ("USB_BUS_RESET_INT", 0x00000200),
       ("OUT_EP1_ZERO_PAYLOAD_INT", 0x00000400),
       ("OUT_EP2_ZERO_PAYLOAD_INT", 0x00000800),
       ("RTS_CHG_INT", 0x00001000),
       ("DTR_CHG_INT", 0x00002000),
       ("GET_LINE_CODE_INT", 0x00004000),
       ("SET_LINE_CODE_INT", 0x00008000)]
    resets :=
      [mUSBSERIALJTAG_INTSTATUSREG_RESET_RAW,
       mUSBSERIALJTAG_INTSTATUSREG_RESET_ST,
       mUSBSERIALJTAG_INTSTATUSREG_RESET_ENA,
       mUSBSERIALJTAG_INTSTATUSREG_RESET_CLR] }

def usbSerialJtag_jfifoStReg_t : RegType :=
  { rname := "__usbSerialJtag_jfifoStReg_t"
    fields :=
      [⟨"IN_FIFO_CNT", 2, true, false⟩,
       ⟨"IN_FIFO_EMPTY", 1, true, false⟩,
       ⟨"IN_FIFO_FULL", 1, true, false⟩,
       ⟨"OUT_FIFO_CNT", 2, true, false⟩,
       ⟨"OUT_FIFO_EMPTY", 1, true, false⟩,
       ⟨"OUT_FIFO_FULL", 1, true, false⟩,
       ⟨"IN_FIFO_RESET", 1, false, false⟩,
       ⟨"OUT_FIFO_RESET", 1, false, false⟩,
       ⟨"RESERVED", 22, true, true⟩]
    masks :=
      [("IN_FIFO_CNT", 0x00000003),
       ("IN_FIFO_EMPTY", 0x00000004),
       ("IN_FIFO_FULL", 0x00000008),
       ("OUT_FIFO_CNT", 0x00000030),
       ("OUT_FIFO_EMPTY", 0x00000040),
       ("OUT_FIFO_FULL", 0x00000080),
       ("IN_FIFO_RESET", 0x00000100),
       ("OUT_FIFO_RESET", 0x00000200)]
    resets := [0x00000044] }

def usbSerialJtag_framNumReg_t : RegType :=
  { rname := "__usbSerialJtag_framNumReg_t"
    fields :=
      [⟨"SOF_FRAME_INDEX", 11, true, false⟩,
       ⟨"RESERVED", 21, true, true⟩]
    masks := [("SOF_FRAME_INDEX", 0x000007FF)]
    resets := [0x00000000] }

def usbSerialJtag_inEpxStReg_t : RegType :=
  { rname := "__usbSerialJtag_inEpxStReg_t"
    fields :=
      [⟨"IN_EPX_STATE", 2, true, false⟩,
       ⟨"IN_EPX_WR_ADDR", 7, true, false⟩,
       ⟨"IN_EPX_RD_ADDR", 7, true, false⟩,
       ⟨"RESERVED", 16, true, true⟩]
    masks :=
      [("IN_EPX_STATE", 0x00000003),
       ("IN_EPX_WR_ADDR", 0x000001FC),
       ("IN_EPX_RD_ADDR", 0x0000FE00)]
    resets := [0x00000003] }

def usbSerialJtag_outEpxStReg_t : RegType :=
  { rname := "__usbSerialJtag_outEpxStReg_t"
    fields :=
      [⟨"OUT_EPX_STATE", 2, true, false⟩,
       ⟨"OUT_EPX_WR_ADDR", 7, true, false⟩,
       ⟨"OUT_EPX_RD_ADDR", 7, true, false⟩,
       ⟨"EP1_REC_DATA_CNT", 7, true, false⟩,
       ⟨"RESERVED", 9, true, true⟩]
    masks :=
      [("OUT_EPX_STATE", 0x00000003),
       ("OUT_EPX_WR_ADDR", 0x000001FC),
       ("OUT_EPX_RD_ADDR", 0x0000FE00),
       ("EP1_REC_DATA_CNT", 0x007F0000)]
    resets := [0x00000003] }

def usbSerialJtag_setLineCodeW0Reg_t : RegType :=
  { rname := "__usbSerialJtag_setLineCodeW0Reg_t"
    fields := [⟨"DW_DTE_RATE", 32, true, false⟩]
    masks := [("DW_DTE_RATE", 0xFFFFFFFF)]
    resets := [0x00000000] }

def usbSerialJtag_setLineCodeW1Reg_t : RegType :=
  { rname := "__usbSerialJtag_setLineCodeW1Reg_t"
    fields :=
      [⟨"BCHAR_FORMAT", 8, true, false⟩,
       ⟨"BPARITY_TYPE", 8, true, false⟩,
       ⟨"BDATA_BITS", 8, true, false⟩,
       ⟨"RESERVED", 8, true, true⟩]
    masks :=
      [("BCHAR_FORMAT", 0x000000FF),
       ("BPARITY_TYPE", 0x0000FF00),
       ("BDATA_BITS", 0x00FF0000)]
    resets := [0x00000000] }

def usbSerialJtag_busResetStReg_t : RegType :=
  { rname := "__usbSerialJtag_busResetStReg_t"
    fields :=
      [⟨"BUS_RESET_ST", 1, true, false⟩,
       ⟨"RESERVED", 31, true, true⟩]
    masks := [("BUS_RESET_ST", 0x00000001)]
    resets := [0x00000001] }

def usbSerialJtag_dateReg_t : RegType :=
  { rname := "__usbSerialJtag_dateReg_t"
    fields := [⟨"DATE", 32, true, false⟩]
    masks := [("DATE", 0xFFFFFFFF)]
    resets := [0x02109220] }

/-! ### Register types of `c.h` (`BUSCTRL_LIB.h`)

The unnamed 3- and 19-bit padding members of `__busctrl_priority_t` are
recorded with an empty name. -/

def mBUSCTRL_PROC0 : Nat := 0x00000001
def mBUSCTRL_PROC1 : Nat := 0x00000010
def mBUSCTRL_DMA_R : Nat := 0x00000100
def mBUSCTRL_DMA_W : Nat := 0x00001000
def mBUSCTRL_PRIORITY_RESET : Nat := 0x00000000
def kBUSCTRL_LOW_PRIORITY : Nat := 0
def kBUSCTRL_HIGH_PRIORITY : Nat := 1

def busctrl_priority_t : RegType :=
  { rname := "__busctrl_priority_t"
    fields :=
      [⟨"PROC0", 1, false, false⟩,
       ⟨"", 3, true, true⟩,
       ⟨"PROC1", 1, false, false⟩,
       ⟨"", 3, true, true⟩,
       ⟨"DMA_R", 1, false, false⟩,
       ⟨"", 3, true, true⟩,
       ⟨"DMA_W", 1, false, false⟩,
       ⟨"", 19, true, true⟩]
    masks :=
      [("PROC0", mBUSCTRL_PROC0),
       ("PROC1", mBUSCTRL_PROC1),
       ("DMA_R", mBUSCTRL_DMA_R),
       ("DMA_W", mBUSCTRL_DMA_W)]
    resets := [mBUSCTRL_PRIORITY_RESET] }

def busctrl_priority_ack_t : RegType :=
  { rname := "__busctrl_priority_ack_t"
    fields :=
      [⟨"ACK", 1, true, false⟩,
       ⟨"reserved0", 31, true, true⟩]
    masks := [("ACK", 0x00000001)]
    resets := [0x00000000] }

def busctrl_perfctrn_t : RegType :=
  { rname := "__busctrl_perfctrn_t"
    fields :=
      [⟨"VALUE", 24, false, false⟩,
       ⟨"reserved0", 8, true, true⟩]
    masks := [("VALUE", 0x00FFFFFF)]
    resets := [0x00000000] }

def busctrl_perfseln_t : RegType :=
  { rname := "__busctrl_perfseln_t"
    fields :=
      [⟨"VALUE", 5, false, false⟩,
       ⟨"reserved0", 27, true, true⟩]
    masks := [("VALUE", 0x0000001F)]
    resets := [0x0000001F] }

/-- All register union types declared across the two headers. -/
def allRegTypes : List RegType :=
  [usbSerialJtag_ep1Reg_t,
   usbSerialJtag_ep1ConfReg_t,
   usbSerialJtag_conf0Reg_t,
   usbSerialJtag_testReg_t,
   usbSerialJtag_miscConfReg_t,
   usbSerialJtag_memConfReg_t,
   usbSerialJtag_chipRstReg_t,
   usbSerialJtag_getLineCodeW0Reg_t,
   usbSerialJtag_getLineCodeW1Reg_t,
   usbSerialJtag_configUpdateReg_t,
   usbSerialJtag_serAfifoConficReg_t,
   usbSerialJtag_intStatusReg_t,
   usbSerialJtag_jfifoStReg_t,
   usbSerialJtag_framNumReg_t,
   usbSerialJtag_inEpxStReg_t,
   usbSerialJtag_outEpxStReg_t,
   usbSerialJtag_setLineCodeW0Reg_t,
   usbSerialJtag_setLineCodeW1Reg_t,
   usbSerialJtag_busResetStReg_t,
   usbSerialJtag_dateReg_t,
   busctrl_priority_t,
   busctrl_priority_ack_t,
   busctrl_perfctrn_t,
   busctrl_perfseln_t]

/-! ### Module struct layouts and base addresses -/

/-- Members of `__usbSerialJtag_t` in declaration order with their byte
sizes: every register union is one `uint32_t` word; `RESERVED_0` is a
`uint32_t[5]` filler array. -/
def usbSerialJtag_t_layout : List (String × Nat) :=
  [("ep1Reg", 4), ("ep1ConfReg", 4),
   ("intRawReg", 4), ("intStReg", 4), ("intEnaReg", 4), ("intClrReg", 4),
   ("conf0Reg", 4), ("testReg", 4),
   ("jfifoStReg", 4), ("framNumReg", 4),
   ("inEp0StReg", 4), ("inEp1StReg", 4), ("inEp2StReg", 4), ("inEp3StReg", 4),
   ("outEp0StReg", 4), ("outEp1StReg", 4), ("outEp2StReg", 4),
   ("miscConfReg", 4), ("memConfReg", 4), ("chipRstReg", 4),
   ("setLineCodeW0Reg", 4), ("setLineCodeW1Reg", 4),
   ("getLineCodeW0Reg", 4), ("getLineCodeW1Reg", 4),
   ("configUpdateReg", 4), ("serAfifoConficReg", 4),
   ("busResetStReg", 4),
   ("RESERVED_0", 20),
   ("dateReg", 4)]

/-- Members of `__busctrl_t` in declaration order with their byte sizes. -/
def busctrl_t_layout : List (String × Nat) :=
  [("PRIORITY", 4), ("PRIORITY_ACK", 4),
   ("PERFCTR0", 4), ("PERFSEL0", 4),
   ("PERFCTR1", 4), ("PERFSEL1", 4),
   ("PERFCTR2", 4), ("PERFSEL2", 4),
   ("PERFCTR3", 4), ("PERFSEL3", 4)]

def kUSB_SERIAL_JTAG_BASE_ADDR : Nat := 0x6000F000

/-- Base address of the `sBUSCTRL` normal read/write binding. -/
def sBUSCTRL_ADDR : Nat := 0x40030000
/-- Base address of the `sBUSCTRL_XOR` atomic-XOR write binding. -/
def sBUSCTRL_XOR_ADDR : Nat := 0x40031000
/-- Base address of the `sBUSCTRL_SET` atomic-SET write binding. -/
def sBUSCTRL_SET_ADDR : Nat := 0x40032000
/-- Base address of the `sBUSCTRL_CLR` atomic-CLEAR write binding. -/
def sBUSCTRL_CLR_ADDR : Nat := 0x40033000

/-! ### Bus-fabric alias write semantics over a simulated backing store

Modelled from the spec: the hardware behaviour behind the `sBUSCTRL_XOR`,
`sBUSCTRL_SET` and `sBUSCTRL_CLR` alias bindings is not software in this
repository; per the spec, a write through the XOR alias toggles exactly the
written bits in the real register, a write through the SET alias OR-sets
them, and a write through the CLR alias AND-clears them, inside the
hardware.  The backing store maps a byte offset within the 0x28-byte
`__busctrl_t` block to the 32-bit value of the register at that offset. -/
def busWrite (st : Nat → Nat) (addr m : Nat) : Nat → Nat := fun off =>
  if addr = sBUSCTRL_ADDR + off ∧ off < 0x28 then m % 2 ^ 32
  else if addr = sBUSCTRL_XOR_ADDR + off ∧ off < 0x28 then st off ^^^ m
  else if addr = sBUSCTRL_SET_ADDR + off ∧ off < 0x28 then st off ||| m
  else if addr = sBUSCTRL_CLR_ADDR + off ∧ off < 0x28 then
    st off &&& (0xFFFFFFFF ^^^ m)
  else st off

/-- Reading a bus-fabric register through the normal `sBUSCTRL` binding. -/
def busRead (st : Nat → Nat) (addr : Nat) : Nat :=
  if sBUSCTRL_ADDR ≤ addr ∧ addr - sBUSCTRL_ADDR < 0x28 then
    st (addr - sBUSCTRL_ADDR)
  else 0

/-! ### PERFSEL selector constants of `c.h` -/

def kBUSCTRL_SEL_APB_CONTESTED : Nat := 0x00
def kBUSCTRL_SEL_APB : Nat := 0x01
def kBUSCTRL_SEL_FASTPERI_CONTESTED : Nat := 0x02
def kBUSCTRL_SEL_FASTPERI : Nat := 0x03
def kBUSCTRL_SEL_SRAM5_CONTESTED : Nat := 0x04
def kBUSCTRL_SEL_SRAM5 : Nat := 0x05
def kBUSCTRL_SEL_SRAM4_CONTESTED : Nat := 0x06
def kBUSCTRL_SEL_SRAM4 : Nat := 0x07
def kBUSCTRL_SEL_SRAM3_CONTESTED : Nat := 0x08
def kBUSCTRL_SEL_SRAM3 : Nat := 0x09
def kBUSCTRL_SEL_SRAM2_CONTESTED : Nat := 0x0A
def kBUSCTRL_SEL_SRAM2 : Nat := 0x0B
def kBUSCTRL_SEL_SRAM1_CONTESTED : Nat := 0x0C
def kBUSCTRL_SEL_SRAM1 : Nat := 0x0D
def kBUSCTRL_SEL_SRAM0_CONTESTED : Nat := 0x0E
def kBUSCTRL_SEL_SRAM0 : Nat := 0x0F
def kBUSCTRL_SEL_XIP_CONTESTED : Nat := 0x10
def kBUSCTRL_SEL_XIP : Nat := 0x11
def kBUSCTRL_SEL_ROM_CONTESTED : Nat := 0x12
def kBUSCTRL_SEL_ROM : Nat := 0x12

/-- The `kBUSCTRL_SEL_*` constants in declaration order. -/
def busctrlSelConstants : List (String × Nat) :=
  [("kBUSCTRL_SEL_APB_CONTESTED", kBUSCTRL_SEL_APB_CONTESTED),
   ("kBUSCTRL_SEL_APB", kBUSCTRL_SEL_APB),
   ("kBUSCTRL_SEL_FASTPERI_CONTESTED", kBUSCTRL_SEL_FASTPERI_CONTESTED),
   ("kBUSCTRL_SEL_FASTPERI", kBUSCTRL_SEL_FASTPERI),
   ("kBUSCTRL_SEL_SRAM5_CONTESTED", kBUSCTRL_SEL_SRAM5_CONTESTED),
   ("kBUSCTRL_SEL_SRAM5", kBUSCTRL_SEL_SRAM5),
   ("kBUSCTRL_SEL_SRAM4_CONTESTED", kBUSCTRL_SEL_SRAM4_CONTESTED),
   ("kBUSCTRL_SEL_SRAM4", kBUSCTRL_SEL_SRAM4),
   ("kBUSCTRL_SEL_SRAM3_CONTESTED", kBUSCTRL_SEL_SRAM3_CONTESTED),
   ("kBUSCTRL_SEL_SRAM3", kBUSCTRL_SEL_SRAM3),
   ("kBUSCTRL_SEL_SRAM2_CONTESTED", kBUSCTRL_SEL_SRAM2_CONTESTED),
   ("kBUSCTRL_SEL_SRAM2", kBUSCTRL_SEL_SRAM2),
   ("kBUSCTRL_SEL_SRAM1_CONTESTED", kBUSCTRL_SEL_SRAM1_CONTESTED),
   ("kBUSCTRL_SEL_SRAM1", kBUSCTRL_SEL_SRAM1),
   ("kBUSCTRL_SEL_SRAM0_CONTESTED", kBUSCTRL_SEL_SRAM0_CONTESTED),
   ("kBUSCTRL_SEL_SRAM0", kBUSCTRL_SEL_SRAM0),
   ("kBUSCTRL_SEL_XIP_CONTESTED", kBUSCTRL_SEL_XIP_CONTESTED),
   ("kBUSCTRL_SEL_XIP", kBUSCTRL_SEL_XIP),
   ("kBUSCTRL_SEL_ROM_CONTESTED", kBUSCTRL_SEL_ROM_CONTESTED),
   ("kBUSCTRL_SEL_ROM", kBUSCTRL_SEL_ROM)]

/-! ### Accessor-macro expansion data for the defective accessors

`bUSB_SERIAL_JTAG_CONFIG_UPDATE` expands to
`sUSB_SERIAL_JTAG.configUpdateReg.BITS.UPDATE`, and the three
`bUSB_SERIAL_JTAG_IN_EP0_*` accessors expand to members
`IN_EP_STATE` / `IN_EP_WR_ADDR` / `IN_EP_RD_ADDR` of `inEp0StReg.BITS`.
Each definition records the member name the macro's expansion accesses. -/

def bUSB_SERIAL_JTAG_CONFIG_UPDATE_member : String := "UPDATE"
def bUSB_SERIAL_JTAG_IN_EP0_STATE_member : String := "IN_EP_STATE"
def bUSB_SERIAL_JTAG_IN_EP0_WR_ADDR_member : String := "IN_EP_WR_ADDR"
def bUSB_SERIAL_JTAG_IN_EP0_RD_ADDR_member : String := "IN_EP_RD_ADDR"

/-! ### Claims -/

/-- Claim C1: in the `__usbSerialJtag_t` struct bound at base address
`0x6000F000` and the `__busctrl_t` struct bound at base address
`0x40030000`, every declared register sits at its documented byte offset
from the module base, and the total struct sizes are 0x84 and 0x28 bytes. -/
theorem module_struct_offsets_and_sizes :
    kUSB_SERIAL_JTAG_BASE_ADDR = 0x6000F000 ∧
    sBUSCTRL_ADDR = 0x40030000 ∧
    structOffset usbSerialJtag_t_layout "ep1Reg" = 0x00 ∧
    structOffset usbSerialJtag_t_layout "ep1ConfReg" = 0x04 ∧
    structOffset usbSerialJtag_t_layout "intRawReg" = 0x08 ∧
    structOffset usbSerialJtag_t_layout "intStReg" = 0x0C ∧
    structOffset usbSerialJtag_t_layout "intEnaReg" = 0x10 ∧
    structOffset usbSerialJtag_t_layout "intClrReg" = 0x14 ∧
    structOffset usbSerialJtag_t_layout "conf0Reg" = 0x18 ∧
    structOffset usbSerialJtag_t_layout "testReg" = 0x1C ∧
    structOffset usbSerialJtag_t_layout "jfifoStReg" = 0x20 ∧
    structOffset usbSerialJtag_t_layout "framNumReg" = 0x24 ∧
    structOffset usbSerialJtag_t_layout "inEp0StReg" = 0x28 ∧
    structOffset usbSerialJtag_t_layout "inEp1StReg" = 0x2C ∧
    structOffset usbSerialJtag_t_layout "inEp2StReg" = 0x30 ∧
    structOffset usbSerialJtag_t_layout "inEp3StReg" = 0x34 ∧
    structOffset usbSerialJtag_t_layout "outEp0StReg" = 0x38 ∧
    structOffset usbSerialJtag_t_layout "outEp1StReg" = 0x3C ∧
    structOffset usbSerialJtag_t_layout "outEp2StReg" = 0x40 ∧
    structOffset usbSerialJtag_t_layout "miscConfReg" = 0x44 ∧
    structOffset usbSerialJtag_t_layout "memConfReg" = 0x48 ∧
    structOffset usbSerialJtag_t_layout "chipRstReg" = 0x4C ∧
    structOffset usbSerialJtag_t_layout "setLineCodeW0Reg" = 0x50 ∧
    structOffset usbSerialJtag_t_layout "setLineCodeW1Reg" = 0x54 ∧
    structOffset usbSerialJtag_t_layout "getLineCodeW0Reg" = 0x58 ∧
    structOffset usbSerialJtag_t_layout "getLineCodeW1Reg" = 0x5C ∧
    structOffset usbSerialJtag_t_layout "configUpdateReg" = 0x60 ∧
    structOffset usbSerialJtag_t_layout "serAfifoConficReg" = 0x64 ∧
    structOffset usbSerialJtag_t_layout "busResetStReg" = 0x68 ∧
    structOffset usbSerialJtag_t_layout "RESERVED_0" = 0x6C ∧
    structOffset usbSerialJtag_t_layout "dateReg" = 0x80 ∧
    structSize usbSerialJtag_t_layout = 0x84 ∧
    structOffset busctrl_t_layout "PRIORITY" = 0x00 ∧
    structOffset busctrl_t_layout "PRIORITY_ACK" = 0x04 ∧
    structOffset busctrl_t_layout "PERFCTR0" = 0x08 ∧
    structOffset busctrl_t_layout "PERFSEL0" = 0x0C ∧
    structOffset busctrl_t_layout "PERFCTR1" = 0x10 ∧
    structOffset busctrl_t_layout "PERFSEL1" = 0x14 ∧
    structOffset busctrl_t_layout "PERFCTR2" = 0x18 ∧
    structOffset busctrl_t_layout "PERFSEL2" = 0x1C ∧
    structOffset busctrl_t_layout "PERFCTR3" = 0x20 ∧
    structOffset busctrl_t_layout "PERFSEL3" = 0x24 ∧
    structSize busctrl_t_layout = 0x28 := by
  decide

/-- Claim C2: over the simulated backing store, a write of a 32-bit mask
`m` at SET-alias address `0x40032000 + off` leaves the register at offset
`off` holding `x ||| m`, a CLR-alias write leaves `x &&& ~m`, and an
XOR-alias write leaves `x ^^^ m`; and starting from the PRIORITY reset
value `0x00000000`, writing `0x00000001` through the SET alias and then
reading the normal PRIORITY register returns `0x00000001`. -/
theorem busctrl_alias_write_semantics :
    (∀ (st : Nat → Nat) (off m : Nat), off < 0x28 → m < 2 ^ 32 →
      busRead (busWrite st (sBUSCTRL_SET_ADDR + off) m) (sBUSCTRL_ADDR + off)
          = st off ||| m ∧
      busRead (busWrite st (sBUSCTRL_CLR_ADDR + off) m) (sBUSCTRL_ADDR + off)
          = st off &&& (0xFFFFFFFF ^^^ m) ∧
      busRead (busWrite st (sBUSCTRL_XOR_ADDR + off) m) (sBUSCTRL_ADDR + off)
          = st off ^^^ m) ∧
    busRead
      (busWrite (fun _ => mBUSCTRL_PRIORITY_RESET)
        (sBUSCTRL_SET_ADDR + structOffset busctrl_t_layout "PRIORITY")
        mBUSCTRL_PROC0)
      (sBUSCTRL_ADDR + structOffset busctrl_t_layout "PRIORITY")
      = 0x00000001 := by
  constructor
  · intro st off m hoff _
    have hread : ∀ st2 : Nat → Nat, busRead st2 (sBUSCTRL_ADDR + off) = st2 off := by
      intro st2
      have hc : sBUSCTRL_ADDR ≤ sBUSCTRL_ADDR + off ∧
          sBUSCTRL_ADDR + off - sBUSCTRL_ADDR < 0x28 := by
        refine ⟨Nat.le_add_right _ _, ?_⟩
        rw [Nat.add_sub_cancel_left]
        exact hoff
      simp only [busRead]
      rw [if_pos hc, Nat.add_sub_cancel_left]
    refine ⟨?_, ?_, ?_⟩
    · rw [hread]
      simp only [busWrite, sBUSCTRL_ADDR, sBUSCTRL_XOR_ADDR, sBUSCTRL_SET_ADDR,
        sBUSCTRL_CLR_ADDR]
      split_ifs with h1 h2 h3 h4
      · exact absurd h1 (by omega)
      · exact absurd h2 (by omega)
      · rfl
      · exact absurd ⟨trivial, hoff⟩ h3
      · exact absurd ⟨trivial, hoff⟩ h3
    · rw [hread]
      simp only [busWrite, sBUSCTRL_ADDR, sBUSCTRL_XOR_ADDR, sBUSCTRL_SET_ADDR,
        sBUSCTRL_CLR_ADDR]
      split_ifs with h1 h2 h3 h4
      · exact absurd h1 (by omega)
      · exact absurd h2 (by omega)
      · exact absurd h3 (by omega)
      · rfl
      · exact absurd ⟨trivial, hoff⟩ h4
    · rw [hread]
      simp only [busWrite, sBUSCTRL_ADDR, sBUSCTRL_XOR_ADDR, sBUSCTRL_SET_ADDR,
        sBUSCTRL_CLR_ADDR]
      split_ifs with h1 h2 h3 h4
      · exact absurd h1 (by omega)
      · rfl
      · exact absurd ⟨trivial, hoff⟩ h2
      · exact absurd ⟨trivial, hoff⟩ h2
      · exact absurd ⟨trivial, hoff⟩ h2
  · decide

/-- Claim C2 witness: the alias-write laws instantiated at offset 0,
mask 1 and the all-zero store. -/
theorem busctrl_alias_write_semantics_witness :
    (0 : Nat) < 0x28 ∧ (1 : Nat) < 2 ^ 32 ∧
    (busRead (busWrite (fun _ => 0) (sBUSCTRL_SET_ADDR + 0) 1) (sBUSCTRL_ADDR + 0)
        = (fun _ => (0 : Nat)) 0 ||| 1 ∧
      busRead (busWrite (fun _ => 0) (sBUSCTRL_CLR_ADDR + 0) 1) (sBUSCTRL_ADDR + 0)
        = (fun _ => (0 : Nat)) 0 &&& (0xFFFFFFFF ^^^ 1) ∧
      busRead (busWrite (fun _ => 0) (sBUSCTRL_XOR_ADDR + 0) 1) (sBUSCTRL_ADDR + 0)
        = (fun _ => (0 : Nat)) 0 ^^^ 1) :=
  ⟨by decide, by decide,
   busctrl_alias_write_semantics.1 (fun _ => 0) 0 1 (by decide) (by decide)⟩

/-- Claim C3: for every register type of either header and every RO-free
declared field, writing a value `v` smaller than `2 ^ width` into that
field of a register word and reading the same field back returns `v`, and
reading any other field of the word is unchanged by the write. -/
theorem regField_roundTrip :
    ∀ rt ∈ allRegTypes, ∀ i : Fin rt.fields.length,
      (rt.fields.get i).ro = false →
      ∀ x v : Nat, v < 2 ^ (rt.fields.get i).width →
        getField (setField x (offsetAt rt.fields i.val) (rt.fields.get i).width v)
            (offsetAt rt.fields i.val) (rt.fields.get i).width = v ∧
        ∀ j : Fin rt.fields.length, j ≠ i →
          getField (setField x (offsetAt rt.fields i.val) (rt.fields.get i).width v)
              (offsetAt rt.fields j.val) (rt.fields.get j).width
            = getField x (offsetAt rt.fields j.val) (rt.fields.get j).width := by
  intro rt _ i _ x v hv
  constructor
  · rw [getField_setField_self, Nat.mod_eq_of_lt hv]
  · intro j hne
    rcases Nat.lt_or_ge j.val i.val with h | h
    · exact getField_setField_lower _ _ _ _ _ _
        (offsetAt_add_width_le rt.fields j.val i.val j.isLt h)
    · have hij : i.val < j.val := by
        rcases Nat.eq_or_lt_of_le h with he | hl
        · exact absurd (Fin.val_injective he.symm) hne
        · exact hl
      exact getField_setField_upper _ _ _ _ _ _
        (offsetAt_add_width_le rt.fields i.val j.val i.isLt hij)

/-- Claim C3 witness: the round-trip law instantiated at the `PHY_SEL`
field (index 0) of `__usbSerialJtag_conf0Reg_t`, word 0 and value 1. -/
theorem regField_roundTrip_witness :
    usbSerialJtag_conf0Reg_t ∈ allRegTypes ∧
    (usbSerialJtag_conf0Reg_t.fields.get ⟨0, by decide⟩).ro = false ∧
    1 < 2 ^ (usbSerialJtag_conf0Reg_t.fields.get
      (⟨0, by decide⟩ : Fin usbSerialJtag_conf0Reg_t.fields.length)).width ∧
    (getField
        (setField 0 (offsetAt usbSerialJtag_conf0Reg_t.fields 0)
          (usbSerialJtag_conf0Reg_t.fields.get
            (⟨0, by decide⟩ : Fin usbSerialJtag_conf0Reg_t.fields.length)).width 1)
        (offsetAt usbSerialJtag_conf0Reg_t.fields 0)
        (usbSerialJtag_conf0Reg_t.fields.get
          (⟨0, by decide⟩ : Fin usbSerialJtag_conf0Reg_t.fields.length)).width = 1 ∧
      ∀ j : Fin usbSerialJtag_conf0Reg_t.fields.length,
        j ≠ (⟨0, by decide⟩ : Fin usbSerialJtag_conf0Reg_t.fields.length) →
          getField
              (setField 0 (offsetAt usbSerialJtag_conf0Reg_t.fields 0)
                (usbSerialJtag_conf0Reg_t.fields.get
                  (⟨0, by decide⟩ : Fin usbSerialJtag_conf0Reg_t.fields.length)).width 1)
              (offsetAt usbSerialJtag_conf0Reg_t.fields j.val)
              (usbSerialJtag_conf0Reg_t.fields.get j).width
            = getField 0 (offsetAt usbSerialJtag_conf0Reg_t.fields j.val)
                (usbSerialJtag_conf0Reg_t.fields.get j).width) :=
  ⟨by decide, by decide, by decide,
   regField_roundTrip usbSerialJtag_conf0Reg_t (by decide) ⟨0, by decide⟩
     (by decide) 0 1 (by decide)⟩

/-- Claim C4: for every register union type of either header, the declared
bit-field widths (reserved padding included) sum to exactly 32. -/
theorem regType_field_widths_sum_32 :
    ∀ rt ∈ allRegTypes, (rt.fields.map RF.width).sum = 32 := by
  decide

/-- Claim C4 witness: the width sum evaluated on
`__usbSerialJtag_conf0Reg_t`. -/
theorem regType_field_widths_sum_32_witness :
    usbSerialJtag_conf0Reg_t ∈ allRegTypes ∧
    (usbSerialJtag_conf0Reg_t.fields.map RF.width).sum = 32 :=
  ⟨by decide, regType_field_widths_sum_32 usbSerialJtag_conf0Reg_t (by decide)⟩

/-- Claim C5: every named field-mask constant of either header equals
`((1 <<< width) - 1) <<< offset` for its field, the offset being the sum
of the widths of the fields declared before it in the same register. -/
theorem mask_constants_match_field_layout :
    ∀ rt ∈ allRegTypes, ∀ p ∈ rt.masks,
      (∃ f ∈ rt.fields, f.fname = p.1) ∧ p.2 = maskOf rt.fields p.1 0 := by
  decide

/-- Claim C5 witness: the mask law evaluated at the `VREFH` mask of
`__usbSerialJtag_conf0Reg_t` (width 2 at offset 3, mask `0x18`). -/
theorem mask_constants_match_field_layout_witness :
    usbSerialJtag_conf0Reg_t ∈ allRegTypes ∧
    ("VREFH", (0x00000018 : Nat)) ∈ usbSerialJtag_conf0Reg_t.masks ∧
    ((∃ f ∈ usbSerialJtag_conf0Reg_t.fields, f.fname = "VREFH") ∧
      (0x00000018 : Nat) = maskOf usbSerialJtag_conf0Reg_t.fields "VREFH" 0) :=
  ⟨by decide, by decide,
   mask_constants_match_field_layout usbSerialJtag_conf0Reg_t (by decide)
     ("VREFH", 0x00000018) (by decide)⟩

/-- Claim C6 counterexample: `__usbSerialJtag_ep1Reg_t` exposes the single
field mask `0xFF`, so the OR of its field masks is `0xFF`, not
`0xFFFFFFFF` as the claim states. -/
theorem mask_or_allOnes_counterexample :
    usbSerialJtag_ep1Reg_t ∈ allRegTypes ∧
    orMasks usbSerialJtag_ep1Reg_t = 0x000000FF ∧
    orMasks usbSerialJtag_ep1Reg_t ≠ 0xFFFFFFFF := by
  decide

/-- Claim C6 (amended): for every register type of either header, the
bitwise OR of its exposed field-mask constants equals the union of the bit
positions of its named (non-reserved) fields, and no two field masks of
one register overlap. -/
theorem mask_or_covers_named_bits_and_disjoint :
    ∀ rt ∈ allRegTypes,
      orMasks rt = namedBits rt.fields 0 ∧
      rt.masks.Pairwise (fun p q => p.2 &&& q.2 = 0) := by
  decide

/-- Claim C6 (amended) witness: evaluated on
`__usbSerialJtag_conf0Reg_t` (masks OR to `0xFFFF`, pairwise disjoint). -/
theorem mask_or_covers_named_bits_and_disjoint_witness :
    usbSerialJtag_conf0Reg_t ∈ allRegTypes ∧
    (orMasks usbSerialJtag_conf0Reg_t = namedBits usbSerialJtag_conf0Reg_t.fields 0 ∧
      usbSerialJtag_conf0Reg_t.masks.Pairwise (fun p q => p.2 &&& q.2 = 0)) :=
  ⟨by decide, mask_or_covers_named_bits_and_disjoint usbSerialJtag_conf0Reg_t (by decide)⟩

/-- Claim C7: the member names accessed by the expansions of
`bUSB_SERIAL_JTAG_CONFIG_UPDATE` and the three `bUSB_SERIAL_JTAG_IN_EP0_*`
accessor macros are not declared bit-fields of their register union types
(`CONFIG_UPDATE` vs accessed `UPDATE`; `IN_EPX_STATE` / `IN_EPX_WR_ADDR` /
`IN_EPX_RD_ADDR` vs accessed `IN_EP_STATE` / `IN_EP_WR_ADDR` /
`IN_EP_RD_ADDR`). -/
theorem accessor_member_not_declared :
    bUSB_SERIAL_JTAG_CONFIG_UPDATE_member ∉
      usbSerialJtag_configUpdateReg_t.fields.map RF.fname ∧
    bUSB_SERIAL_JTAG_IN_EP0_STATE_member ∉
      usbSerialJtag_inEpxStReg_t.fields.map RF.fname ∧
    bUSB_SERIAL_JTAG_IN_EP0_WR_ADDR_member ∉
      usbSerialJtag_inEpxStReg_t.fields.map RF.fname ∧
    bUSB_SERIAL_JTAG_IN_EP0_RD_ADDR_member ∉
      usbSerialJtag_inEpxStReg_t.fields.map RF.fname := by
  decide

/-- Claim C8: `kBUSCTRL_SEL_ROM_CONTESTED` and `kBUSCTRL_SEL_ROM` are both
defined as `0x12`, so while every selector constant fits the 5-bit VALUE
field, the twenty enumerated constants are not pairwise distinct. -/
theorem perfsel_rom_constants_collide :
    kBUSCTRL_SEL_ROM_CONTESTED = kBUSCTRL_SEL_ROM ∧
    kBUSCTRL_SEL_ROM_CONTESTED = 0x12 ∧
    (busctrlSelConstants.map Prod.snd).all (fun v => decide (v < 32)) = true ∧
    ¬ (busctrlSelConstants.map Prod.snd).Pairwise (fun a b => a ≠ b) := by
  decide

/-- Claim C9: the interrupt RAW bank's documented reset constant is
`0x00000008`, exactly the bit of `IN_EMPTY_INT` (bit 3), and the ST, ENA
and CLR bank reset constants are all `0x00000000`. -/
theorem int_bank_reset_values :
    mUSBSERIALJTAG_INTSTATUSREG_RESET_RAW = 0x00000008 ∧
    mUSBSERIALJTAG_INTSTATUSREG_RESET_RAW
      = mUSBSERIALJTAG_INTSTATUSREG_IN_EMPTY_INT ∧
    maskOf usbSerialJtag_intStatusReg_t.fields "IN_EMPTY_INT" 0 = 2 ^ 3 ∧
    usbSerialJtag_intStatusReg_t.resets =
      [mUSBSERIALJTAG_INTSTATUSREG_RESET_RAW,
       mUSBSERIALJTAG_INTSTATUSREG_RESET_ST,
       mUSBSERIALJTAG_INTSTATUSREG_RESET_ENA,
       mUSBSERIALJTAG_INTSTATUSREG_RESET_CLR] ∧
    mUSBSERIALJTAG_INTSTATUSREG_RESET_ST = 0x00000000 ∧
    mUSBSERIALJTAG_INTSTATUSREG_RESET_ENA = 0x00000000 ∧
    mUSBSERIALJTAG_INTSTATUSREG_RESET_CLR = 0x00000000 := by
  decide

/-- Claim C10: every documented reset-value constant of every register
type of either header has no bit set outside the union of that register's
named field-mask constants. -/
theorem reset_within_named_masks :
    ∀ rt ∈ allRegTypes, ∀ r ∈ rt.resets,
      r &&& (0xFFFFFFFF ^^^ orMasks rt) = 0 := by
  decide

/-- Claim C10 witness: evaluated at the RAW reset of
`__usbSerialJtag_intStatusReg_t`. -/
theorem reset_within_named_masks_witness :
    usbSerialJtag_intStatusReg_t ∈ allRegTypes ∧
    mUSBSERIALJTAG_INTSTATUSREG_RESET_RAW ∈ usbSerialJtag_intStatusReg_t.resets ∧
    mUSBSERIALJTAG_INTSTATUSREG_RESET_RAW
        &&& (0xFFFFFFFF ^^^ orMasks usbSerialJtag_intStatusReg_t) = 0 :=
  ⟨by decide, by decide,
   reset_within_named_masks usbSerialJtag_intStatusReg_t (by decide)
     mUSBSERIALJTAG_INTSTATUSREG_RESET_RAW (by decide)⟩
